import Mathlib

/-!
Shallow embedding of the booking and inventory subsystem of the car-rental
server (single Express source file).  Machine numbers of the source are
modelled as Int, monetary amounts as exact rationals, calendar dates as
integer millisecond timestamps (the value of a JS Date).  The persisted
inventory document is the Inventory structure; every route handler is a
pure function from the loaded document (plus request data) to either an
error response or the document it saves.
-/

namespace CarRental

/-- A car record of the inventory document (initial inventory, lines 96 to 127
of the source, fixes the field set). -/
structure Car where
  id : Int
  name : String
  model : String
  price : Int
  year : String
  seats : String
  transmission : String
  fuel : String
  mileage : String
  features : String
  quantity : Int
  available : Int
  images : List String
deriving DecidableEq

/-- A booking record as assembled by the POST bookings handler
(source lines 472 to 492).  The bookingDate timestamp is kept as the raw
clock value. -/
structure Booking where
  bookingId : String
  carId : Int
  carName : String
  firstName : String
  lastName : String
  email : String
  phone : String
  pickupDate : Int
  returnDate : Int
  pickupLocation : String
  additionalInfo : String
  pricePerDay : Int
  days : Int
  subtotal : ℚ
  tax : ℚ
  total : ℚ
  paymentIntentId : Option String
  paymentStatus : String
  bookingDate : Int
deriving DecidableEq

/-- The persisted inventory document: cars plus bookings (inventory.json). -/
structure Inventory where
  cars : List Car
  bookings : List Booking
deriving DecidableEq

/-- The request body of POST bookings (source line 432).  Optional fields
are absent or empty in JS; they are modelled as Option. -/
structure BookingRequest where
  carId : Int
  firstName : String
  lastName : String
  email : String
  phone : String
  pickupDate : Int
  returnDate : Int
  pickupLocation : String
  additionalInfo : Option String
  paymentIntentId : Option String
deriving DecidableEq

/-- Deployment environment of the handler: whether STRIPE_SECRET_KEY is set
(source line 8 and the guard on line 459), and the external payment collaborator
lookup (stripe.paymentIntents.retrieve); none models a thrown lookup error. -/
structure Config where
  stripeConfigured : Bool
  retrieveIntent : String → Option String

/-- Error responses of the POST bookings handler, one per distinct early
return of the source (lines 436, 440, 447, 464, 468). -/
inductive BookingError
  | carNotFound
  | carUnavailable
  | invalidDateRange
  | paymentNotCompleted
  | paymentVerificationFailed
deriving DecidableEq

def pendingStatus : String := "pending"

def succeededStatus : String := "succeeded"

/-- Predicate used by the car lookups: c.id === parseInt(carId). -/
def carMatches (cid : Int) (c : Car) : Bool := c.id == cid

/-- JS truthiness of the optional paymentIntentId string (line 459). -/
def refSupplied : Option String → Bool
  | none => false
  | some s => s != ""

/-- JS expression additionalInfo || two quotes (line 483). -/
def orEmpty : Option String → String
  | none => ""
  | some s => s

/-- Rental length, source line 452: Math.ceil of the millisecond difference
of the two dates divided by one day of milliseconds. -/
def rentalDays (pickup ret : Int) : Int :=
  ⌈((ret - pickup : ℤ) : ℚ) / (86400000 : ℚ)⌉

/-- In-place mutation of the first car matching the id, as done through the
object reference returned by cars.find in the source. -/
def updateFirstCar (cars : List Car) (cid : Int) (f : Car → Car) : List Car :=
  match cars with
  | [] => []
  | c :: rest =>
    if carMatches cid c then f c :: rest else c :: updateFirstCar rest cid f

/-- Payment verification step of the POST bookings handler, lines 457 to 470.
The stripe object itself is always truthy, so only the presence of the
secret key and of the reference gate the lookup.  A lookup that throws maps
to none. -/
def verifyPayment (cfg : Config) (pid? : Option String) : Except BookingError String :=
  if refSupplied pid? && cfg.stripeConfigured then
    match pid? with
    | some pid =>
      match cfg.retrieveIntent pid with
      | some status =>
        if status = succeededStatus then .ok status else .error .paymentNotCompleted
      | none => .error .paymentVerificationFailed
    | none => .ok pendingStatus
  else .ok pendingStatus

/-- The POST bookings handler, source lines 429 to 497: load, locate car,
availability check, date check, pricing, payment verification, booking
construction, decrement of availability, append, save.  The returned
inventory is the document passed to saveInventory; an error return saves
nothing.  The now argument is the Date.now clock value used for the fresh
booking id and the booking date. -/
def createBooking (cfg : Config) (inv : Inventory) (req : BookingRequest) (now : Int) :
    Except BookingError (Inventory × Booking) :=
  match inv.cars.find? (carMatches req.carId) with
  | none => .error .carNotFound
  | some car =>
    if car.available ≤ 0 then .error .carUnavailable
    else if req.returnDate ≤ req.pickupDate then .error .invalidDateRange
    else
      let bookingId := "BK" ++ toString now
      let days := rentalDays req.pickupDate req.returnDate
      let subtotal : ℚ := (days : ℚ) * (car.price : ℚ)
      let tax : ℚ := subtotal * (8 / 100)
      let total : ℚ := subtotal + tax
      match verifyPayment cfg req.paymentIntentId with
      | .error e => .error e
      | .ok paymentStatus =>
        let booking : Booking :=
          { bookingId := bookingId
            carId := car.id
            carName := car.name
            firstName := req.firstName
            lastName := req.lastName
            email := req.email
            phone := req.phone
            pickupDate := req.pickupDate
            returnDate := req.returnDate
            pickupLocation := req.pickupLocation
            additionalInfo := orEmpty req.additionalInfo
            pricePerDay := car.price
            days := days
            subtotal := subtotal
            tax := tax
            total := total
            paymentIntentId := if refSupplied req.paymentIntentId then req.paymentIntentId else none
            paymentStatus := paymentStatus
            bookingDate := now }
        .ok ({ cars := updateFirstCar inv.cars req.carId
                 (fun c => { c with available := c.available - 1 })
               bookings := inv.bookings ++ [booking] },
             booking)

/-- The PUT availability handler, source lines 656 to 686: optional new
available value (clamped into the current quantity), then optional new
quantity (quantity replaced, available lowered to at most the new
quantity). -/
def applyAvailabilityUpdate (car : Car) (avail? quant? : Option Int) : Car :=
  let c1 := match avail? with
    | some v => { car with available := max 0 (min car.quantity v) }
    | none => car
  match quant? with
  | some nq => { c1 with quantity := nq, available := min c1.available nq }
  | none => c1

/-- The PUT availability route as a function on the document: 404 when the
car id is unknown, otherwise the updated document that is saved. -/
def setAvailability (inv : Inventory) (cid : Int) (avail? quant? : Option Int) :
    Except Unit Inventory :=
  match inv.cars.find? (carMatches cid) with
  | none => .error ()
  | some _ =>
    .ok { inv with cars := (updateFirstCar inv.cars cid
            (fun c => applyAvailabilityUpdate c avail? quant?)) }

/-- The POST images route, source lines 352 to 374: append the stored
filenames to the images list of the car; 404 for an unknown car, 400 when
no file arrived. -/
def attachImages (inv : Inventory) (cid : Int) (files : List String) :
    Except Unit Inventory :=
  match inv.cars.find? (carMatches cid) with
  | none => .error ()
  | some _ =>
    if files = [] then .error ()
    else .ok { inv with cars := (updateFirstCar inv.cars cid
                 (fun c => { c with images := c.images ++ files })) }

/-- The per-car inventory invariant claimed by the specification. -/
def carOK (c : Car) : Prop := 0 ≤ c.available ∧ c.available ≤ c.quantity

instance (c : Car) : Decidable (carOK c) :=
  inferInstanceAs (Decidable (_ ∧ _))

/-- The store-wide inventory invariant claimed by the specification. -/
def invOK (inv : Inventory) : Prop := ∀ c ∈ inv.cars, carOK c

instance (inv : Inventory) : Decidable (invOK inv) :=
  inferInstanceAs (Decidable (∀ c ∈ inv.cars, carOK c))

/-- Rounding of a rational to two decimal places (the display precision the
specification refers to). -/
def roundTo2 (q : ℚ) : ℚ := ((round (q * 100) : ℤ) : ℚ) / 100

/-- JS Number.toFixed(2) for the nonnegative amounts of the invoice. -/
def toFixed2 (q : ℚ) : String :=
  let n : Int := round (q * 100)
  let w : Int := n / 100
  let f : Int := n % 100
  toString w ++ "." ++ (if f < 10 then "0" ++ toString f else toString f)

/-- Rental length recomputed by the invoice renderer, source line 160. -/
def invoiceDays (b : Booking) : Int := rentalDays b.pickupDate b.returnDate

/-- Subtotal recomputed by the invoice renderer, source line 161. -/
def invoiceSubtotal (b : Booking) : ℚ := ((invoiceDays b : ℤ) : ℚ) * (b.pricePerDay : ℚ)

/-- Tax recomputed by the invoice renderer, source line 162. -/
def invoiceTax (b : Booking) : ℚ := invoiceSubtotal b * (8 / 100)

/-- Total recomputed by the invoice renderer, source line 163. -/
def invoiceTotal (b : Booking) : ℚ := invoiceSubtotal b + invoiceTax b

/-- Static template text of the invoice up to the first interpolation
(the firstName greeting).  Literal braces of the style sheet are written
as escapes; indentation of the source template is normalised. -/
def invTpl1 : String :=
  "<!DOCTYPE html>\n<html>\n<head>\n<style>\nbody \x7b font-family: Arial, sans-serif; line-height: 1.6; color: #333; \x7d\n.container \x7b max-width: 600px; margin: 0 auto; padding: 20px; \x7d\n.header \x7b background: linear-gradient(135deg, #667eea 0%, #764ba2 100%); color: white; padding: 30px; text-align: center; border-radius: 10px 10px 0 0; \x7d\n.content \x7b background: #f9f9f9; padding: 30px; border-radius: 0 0 10px 10px; \x7d\n.invoice-details \x7b background: white; padding: 20px; border-radius: 8px; margin: 20px 0; \x7d\n.detail-row \x7b display: flex; justify-content: space-between; padding: 10px 0; border-bottom: 1px solid #eee; \x7d\n.detail-row:last-child \x7b border-bottom: none; \x7d\n.total \x7b font-size: 1.5em; font-weight: bold; color: #667eea; margin-top: 20px; \x7d\n.footer \x7b text-align: center; margin-top: 30px; color: #666; font-size: 0.9em; \x7d\n</style>\n</head>\n<body>\n<div class=\"container\">\n<div class=\"header\">\n<h1>ES Dynamic Rentals</h1>\n<p>Booking Confirmation & Invoice</p>\n</div>\n<div class=\"content\">\n<h2>Thank you for your booking, "

def invTpl2 : String :=
  "!</h2>\n<p>Your reservation has been confirmed. Below are your booking details:</p>\n<div class=\"invoice-details\">\n<h3>Booking Information</h3>\n<div class=\"detail-row\">\n<span><strong>Booking ID:</strong></span>\n<span>#"

def invTpl3 : String :=
  "</span>\n</div>\n<div class=\"detail-row\">\n<span><strong>Vehicle:</strong></span>\n<span>"

def invTpl4 : String :=
  "</span>\n</div>\n<div class=\"detail-row\">\n<span><strong>Pickup Date:</strong></span>\n<span>"

def invTpl5 : String :=
  "</span>\n</div>\n<div class=\"detail-row\">\n<span><strong>Return Date:</strong></span>\n<span>"

def invTpl6 : String :=
  "</span>\n</div>\n<div class=\"detail-row\">\n<span><strong>Rental Period:</strong></span>\n<span>"

def invTpl7 : String :=
  " day(s)</span>\n</div>\n<div class=\"detail-row\">\n<span><strong>Pickup Location:</strong></span>\n<span>"

def invTpl8 : String :=
  "</span>\n</div>\n</div>\n<div class=\"invoice-details\">\n<h3>Customer Information</h3>\n<div class=\"detail-row\">\n<span><strong>Name:</strong></span>\n<span>"

def invTpl9 : String :=
  "</span>\n</div>\n<div class=\"detail-row\">\n<span><strong>Email:</strong></span>\n<span>"

def invTpl10 : String :=
  "</span>\n</div>\n<div class=\"detail-row\">\n<span><strong>Phone:</strong></span>\n<span>"

def invTpl11 : String :=
  "</span>\n</div>\n</div>\n<div class=\"invoice-details\">\n<h3>Pricing</h3>\n<div class=\"detail-row\">\n<span>Daily Rate:</span>\n<span>$"

def invTpl12 : String :=
  "/day</span>\n</div>\n<div class=\"detail-row\">\n<span>Rental Days:</span>\n<span>"

def invTpl13 : String :=
  " day(s)</span>\n</div>\n<div class=\"detail-row\">\n<span>Subtotal:</span>\n<span>$"

def invTpl14 : String :=
  "</span>\n</div>\n<div class=\"detail-row\">\n<span>Tax (8%):</span>\n<span>$"

def invTpl15 : String :=
  "</span>\n</div>\n<div class=\"detail-row total\">\n<span>Total:</span>\n<span>$"

def invTpl16 : String :=
  "</span>\n</div>\n</div>\n"

/-- Opening of the conditional Additional Information block (line 259). -/
def addlPre : String :=
  "\n<div class=\"invoice-details\">\n<h3>Additional Information</h3>\n<p>"

/-- Closing of the conditional Additional Information block. -/
def addlPost : String := "</p>\n</div>\n"

/-- Static footer of the invoice template (lines 266 to 276). -/
def invTail : String :=
  "\n<div class=\"footer\">\n<p><strong>ES Dynamic Rentals</strong></p>\n<p>1460 South Canton Avenue, Tulsa, Oklahoma 74137</p>\n<p>Phone: 918-204-8691 | Email: esdyamicrental@gmail.com</p>\n<p>Please arrive 15 minutes before your scheduled pickup time.</p>\n</div>\n</div>\n</div>\n</body>\n</html>\n"

/-- The invoice renderer generateInvoiceHTML, source lines 159 to 277.  The
locale argument models Date.toLocaleDateString, an environment-supplied
formatter of a timestamp.  The four monetary figures are the ones the
renderer itself recomputes on lines 160 to 163; the conditional block at
line 259 embeds additionalInfo only when it is truthy. -/
def generateInvoiceHTML (locale : Int → String) (b : Booking) : String :=
  invTpl1 ++ b.firstName ++ invTpl2 ++ b.bookingId ++ invTpl3 ++ b.carName ++ invTpl4
    ++ locale b.pickupDate ++ invTpl5 ++ locale b.returnDate ++ invTpl6
    ++ toString (invoiceDays b) ++ invTpl7 ++ b.pickupLocation ++ invTpl8
    ++ b.firstName ++ " " ++ b.lastName ++ invTpl9 ++ b.email ++ invTpl10
    ++ b.phone ++ invTpl11
    ++ toString b.pricePerDay ++ invTpl12 ++ toString (invoiceDays b) ++ invTpl13
    ++ toFixed2 (invoiceSubtotal b) ++ invTpl14 ++ toFixed2 (invoiceTax b) ++ invTpl15
    ++ toFixed2 (invoiceTotal b) ++ invTpl16
    ++ (if b.additionalInfo = "" then "" else addlPre ++ b.additionalInfo ++ addlPost)
    ++ invTail

/-! Extractors over handler results, used to state concrete facts without
forcing evaluation of the rational booking fields. -/

/-- True exactly when the handler returned the success response. -/
def isOkB : Except BookingError (Inventory × Booking) → Bool
  | .ok _ => true
  | .error _ => false

/-- The saved inventory of a successful booking call, or the given default. -/
def bookedInvOr (e : Except BookingError (Inventory × Booking)) (dflt : Inventory) : Inventory :=
  match e with
  | .ok p => p.1
  | .error _ => dflt

/-- The created booking of a successful booking call, or the given default. -/
def bookedBookingOr (e : Except BookingError (Inventory × Booking)) (dflt : Booking) : Booking :=
  match e with
  | .ok p => p.2
  | .error _ => dflt

/-- The payment status recorded in the created booking, when any. -/
def bookedPaymentStatus (e : Except BookingError (Inventory × Booking)) : Option String :=
  match e with
  | .ok p => some p.2.paymentStatus
  | .error _ => none

/-- The saved inventory of an admin route, or the given default. -/
def okInvOr (e : Except Unit Inventory) (dflt : Inventory) : Inventory :=
  match e with
  | .ok i => i
  | .error _ => dflt

/-! Concrete fixtures: the seeded catalog of initializeInventory
(source lines 95 to 129) and some requests. -/

/-- First seeded car, source lines 97 to 111. -/
def camry : Car :=
  { id := 1
    name := "Toyota Camry"
    model := "Camry"
    price := 60
    year := "2024"
    seats := "5"
    transmission := "Automatic"
    fuel := "Gasoline"
    mileage := "Unlimited"
    features := "Bluetooth, Navigation, Backup Camera, Apple CarPlay"
    quantity := 1
    available := 1
    images := [] }

/-- Second seeded car, source lines 112 to 126. -/
def rav4 : Car :=
  { id := 2
    name := "Toyota RAV4"
    model := "RAV4"
    price := 70
    year := "2024"
    seats := "5"
    transmission := "Automatic"
    fuel := "Gasoline"
    mileage := "Unlimited"
    features := "All-Wheel Drive, Apple CarPlay, Safety Sense, Panoramic Roof"
    quantity := 3
    available := 3
    images := [] }

/-- The seeded inventory document. -/
def seededInventory : Inventory := { cars := [camry, rav4], bookings := [] }

/-- Deployment without a Stripe secret key. -/
def noStripeConfig : Config :=
  { stripeConfigured := false, retrieveIntent := fun _ => none }

/-- All fallback fields of a booking, used only as extractor default. -/
def fallbackBooking : Booking :=
  { bookingId := ""
    carId := 0
    carName := ""
    firstName := ""
    lastName := ""
    email := ""
    phone := ""
    pickupDate := 0
    returnDate := 0
    pickupLocation := ""
    additionalInfo := ""
    pricePerDay := 0
    days := 0
    subtotal := 0
    tax := 0
    total := 0
    paymentIntentId := none
    paymentStatus := ""
    bookingDate := 0 }

/-- Free-text note of the demo request. -/
def lateNote : String := "late arrival"

/-- A well-formed demo request for the second car over three days. -/
def demoReq : BookingRequest :=
  { carId := 2
    firstName := "Ada"
    lastName := "Lovelace"
    email := "ada@example.com"
    phone := "5551234"
    pickupDate := 0
    returnDate := 259200000
    pickupLocation := "Tulsa"
    additionalInfo := some lateNote
    paymentIntentId := none }

/-- Result of the demo booking. -/
def demoResult : Except BookingError (Inventory × Booking) :=
  createBooking noStripeConfig seededInventory demoReq 1000

/-- Inventory saved by the demo booking. -/
def demoInvAfter : Inventory := bookedInvOr demoResult seededInventory

/-- Booking created by the demo booking. -/
def demoBooking : Booking := bookedBookingOr demoResult fallbackBooking

/-! Helper lemmas about the mutation of the first matching car. -/

lemma mem_updateFirstCar (cars : List Car) (cid : Int) (f : Car → Car) :
    ∀ x ∈ updateFirstCar cars cid f,
      x ∈ cars ∨ ∃ c, cars.find? (carMatches cid) = some c ∧ x = f c := by
  induction cars with
  | nil => simp [updateFirstCar]
  | cons c rest ih =>
    intro x hx
    by_cases hc : carMatches cid c = true
    · simp only [updateFirstCar, if_pos hc, List.mem_cons] at hx
      rcases hx with h1 | h2
      · exact Or.inr ⟨c, List.find?_cons_of_pos _ hc, h1⟩
      · exact Or.inl (List.mem_cons_of_mem _ h2)
    · simp only [updateFirstCar, if_neg hc, List.mem_cons] at hx
      rcases hx with h1 | h2
      · exact Or.inl (by simp [h1])
      · rcases ih x h2 with h3 | ⟨c2, hf, hx2⟩
        · exact Or.inl (List.mem_cons_of_mem _ h3)
        · exact Or.inr ⟨c2, by rw [List.find?_cons_of_neg _ hc]; exact hf, hx2⟩

lemma updateFirst_of_find (cars : List Car) (cid : Int) (f : Car → Car) (car : Car)
    (h : cars.find? (carMatches cid) = some car) :
    ∃ j, ∃ hj : j < cars.length,
      cars.get ⟨j, hj⟩ = car ∧ carMatches cid car = true ∧
      updateFirstCar cars cid f = cars.set j (f car) := by
  induction cars with
  | nil => simp [List.find?] at h
  | cons c rest ih =>
    by_cases hc : carMatches cid c = true
    · rw [List.find?_cons_of_pos _ hc] at h
      obtain rfl : c = car := by injection h
      exact ⟨0, by simp, rfl, hc, by simp [updateFirstCar, hc]⟩
    · rw [List.find?_cons_of_neg _ hc] at h
      obtain ⟨j, hj, hget, hm, hupd⟩ := ih h
      refine ⟨j + 1, by simpa using Nat.succ_lt_succ hj, ?_, hm, ?_⟩
      · simpa using hget
      · simp [updateFirstCar, hc, hupd]

/-- Full description of a successful run of the POST bookings handler:
which checks must have passed and what the saved document and the created
booking contain. -/
lemma createBooking_ok_spec (cfg : Config) (inv : Inventory) (req : BookingRequest)
    (now : Int) (inv2 : Inventory) (b : Booking)
    (h : createBooking cfg inv req now = .ok (inv2, b)) :
    ∃ car, inv.cars.find? (carMatches req.carId) = some car ∧
      0 < car.available ∧
      req.pickupDate < req.returnDate ∧
      verifyPayment cfg req.paymentIntentId = .ok b.paymentStatus ∧
      b.bookingId = "BK" ++ toString now ∧
      b.carId = car.id ∧
      b.carName = car.name ∧
      b.firstName = req.firstName ∧
      b.lastName = req.lastName ∧
      b.email = req.email ∧
      b.phone = req.phone ∧
      b.pickupDate = req.pickupDate ∧
      b.returnDate = req.returnDate ∧
      b.pickupLocation = req.pickupLocation ∧
      b.additionalInfo = orEmpty req.additionalInfo ∧
      b.pricePerDay = car.price ∧
      b.days = rentalDays req.pickupDate req.returnDate ∧
      b.subtotal = ((b.days : ℤ) : ℚ) * ((car.price : ℤ) : ℚ) ∧
      b.tax = b.subtotal * (8 / 100) ∧
      b.total = b.subtotal + b.tax ∧
      b.paymentIntentId = (if refSupplied req.paymentIntentId then req.paymentIntentId else none) ∧
      b.bookingDate = now ∧
      inv2.cars = updateFirstCar inv.cars req.carId
        (fun c => { c with available := c.available - 1 }) ∧
      inv2.bookings = inv.bookings ++ [b] := by
  cases hfind : inv.cars.find? (carMatches req.carId) with
  | none => simp [createBooking, hfind] at h
  | some car =>
    by_cases ha : car.available ≤ 0
    · simp [createBooking, hfind, ha] at h
    · by_cases hd : req.returnDate ≤ req.pickupDate
      · simp [createBooking, hfind, ha, hd] at h
      · cases hv : verifyPayment cfg req.paymentIntentId with
        | error e => simp [createBooking, hfind, ha, hd, hv] at h
        | ok ps =>
          simp only [createBooking, hfind, if_neg ha, if_neg hd, hv] at h
          obtain ⟨h1, h2⟩ := by simpa [Prod.ext_iff] using h
          subst h1
          subst h2
          exact ⟨car, rfl, by omega, by omega, rfl,
            rfl, rfl, rfl, rfl, rfl, rfl, rfl, rfl, rfl, rfl, rfl, rfl, rfl,
            rfl, rfl, rfl, rfl, rfl, rfl, rfl⟩

/-- Success of the POST bookings handler depends only on the car lookup,
the availability check, the date check and the payment step, never on the
customer fields. -/
lemma createBooking_isOk_iff (cfg : Config) (inv : Inventory) (req : BookingRequest)
    (now : Int) :
    isOkB (createBooking cfg inv req now) = true ↔
      ∃ car, inv.cars.find? (carMatches req.carId) = some car ∧
        0 < car.available ∧ req.pickupDate < req.returnDate ∧
        ∃ s, verifyPayment cfg req.paymentIntentId = .ok s := by
  constructor
  · intro h
    cases hfind : inv.cars.find? (carMatches req.carId) with
    | none => simp [createBooking, hfind, isOkB] at h
    | some car =>
      by_cases ha : car.available ≤ 0
      · simp [createBooking, hfind, ha, isOkB] at h
      · by_cases hd : req.returnDate ≤ req.pickupDate
        · simp [createBooking, hfind, ha, hd, isOkB] at h
        · cases hv : verifyPayment cfg req.paymentIntentId with
          | error e => simp [createBooking, hfind, ha, hd, hv, isOkB] at h
          | ok s => exact ⟨car, rfl, by omega, by omega, s, rfl⟩
  · rintro ⟨car, hfind, ha, hd, s, hv⟩
    simp only [createBooking, hfind, if_neg (by omega : ¬ car.available ≤ 0),
      if_neg (by omega : ¬ req.returnDate ≤ req.pickupDate), hv]
    rfl

/-- The clamped admin update keeps a car inside the invariant as long as a
supplied quantity value is non-negative. -/
lemma carOK_applyAvailabilityUpdate (car : Car) (avail? quant? : Option Int)
    (h : carOK car) (hq : ∀ q, quant? = some q → 0 ≤ q) :
    carOK (applyAvailabilityUpdate car avail? quant?) := by
  obtain ⟨h1, h2⟩ := h
  cases quant? with
  | some nq =>
    have hnq : 0 ≤ nq := hq nq rfl
    cases avail? with
    | some v =>
      simp only [applyAvailabilityUpdate, carOK]
      constructor <;> simp <;> omega
    | none =>
      simp only [applyAvailabilityUpdate, carOK]
      constructor <;> simp <;> omega
  | none =>
    cases avail? with
    | some v =>
      simp only [applyAvailabilityUpdate, carOK]
      constructor <;> simp <;> omega
    | none => exact ⟨h1, h2⟩

/-- The demo result is a success whose parts are the two extractor values;
this equation holds by computation and is reused to discharge hypotheses
at concrete inputs. -/
lemma demoResult_eq : demoResult = .ok (demoInvAfter, demoBooking) := rfl

/-- Result of updating the first seeded car with a negative quantity. -/
def negQuantityInventory : Inventory :=
  okInvOr (setAvailability seededInventory 1 none (some (-1))) seededInventory

/-- C1, amended.  The invariant 0 ≤ available ≤ quantity is preserved by the
admin availability update whenever a supplied quantity value is
non-negative, by every successful booking, and by every image attachment.
The unqualified claim fails for a negative quantity input, see the
counterexample. -/
theorem c1_invariant_preserved :
    (∀ inv cid avail? quant?, invOK inv → (∀ q, quant? = some q → 0 ≤ q) →
       ∀ inv2, setAvailability inv cid avail? quant? = .ok inv2 → invOK inv2)
  ∧ (∀ cfg inv req now, invOK inv →
       ∀ inv2 b, createBooking cfg inv req now = .ok (inv2, b) → invOK inv2)
  ∧ (∀ inv cid files, invOK inv →
       ∀ inv2, attachImages inv cid files = .ok inv2 → invOK inv2) := by
  refine ⟨?_, ?_, ?_⟩
  · intro inv cid avail? quant? hInv hq inv2 h
    cases hfind : inv.cars.find? (carMatches cid) with
    | none => simp [setAvailability, hfind] at h
    | some c0 =>
      simp only [setAvailability, hfind, Except.ok.injEq] at h
      subst h
      intro x hx
      simp only at hx
      rcases mem_updateFirstCar _ _ _ x hx with hmem | ⟨c, hf2, rfl⟩
      · exact hInv x hmem
      · exact carOK_applyAvailabilityUpdate c avail? quant?
          (hInv c (List.mem_of_find?_eq_some hf2)) hq
  · intro cfg inv req now hInv inv2 b h
    obtain ⟨car, hfind, hav, -, -, -, -, -, -, -, -, -, -, -, -, -, -, -, -,
      -, -, -, -, hcars, -⟩ := createBooking_ok_spec cfg inv req now inv2 b h
    intro x hx
    rw [hcars] at hx
    rcases mem_updateFirstCar _ _ _ x hx with hmem | ⟨c, hf2, rfl⟩
    · exact hInv x hmem
    · obtain rfl : c = car := by
        rw [hfind] at hf2
        injection hf2 with h2
        exact h2.symm
      obtain ⟨ha1, ha2⟩ := hInv c (List.mem_of_find?_eq_some hfind)
      constructor
      · simp only
        omega
      · simp only
        omega
  · intro inv cid files hInv inv2 h
    cases hfind : inv.cars.find? (carMatches cid) with
    | none => simp [attachImages, hfind] at h
    | some c0 =>
      by_cases hfl : files = []
      · simp [attachImages, hfind, hfl] at h
      · simp only [attachImages, hfind, if_neg hfl, Except.ok.injEq] at h
        subst h
        intro x hx
        simp only at hx
        rcases mem_updateFirstCar _ _ _ x hx with hmem | ⟨c, hf2, rfl⟩
        · exact hInv x hmem
        · have := hInv c (List.mem_of_find?_eq_some hf2)
          simpa [carOK] using this

/-- C1 witness: a concrete admin update with a non-negative quantity keeps
the seeded inventory inside the invariant. -/
theorem c1_witness :
    invOK (okInvOr (setAvailability seededInventory 1 (some 5) (some 2)) seededInventory) :=
  c1_invariant_preserved.1 seededInventory 1 (some 5) (some 2) (by decide)
    (fun q hq => by injection hq with h; omega) _ rfl

/-- C1 counterexample: the claim as stated quantifies over every input of
the admin update, but a negative quantity input drives both quantity and
available of the first seeded car to minus one, violating
0 ≤ available ≤ quantity after the operation. -/
theorem c1_counterexample :
    invOK seededInventory ∧
    setAvailability seededInventory 1 none (some (-1)) = .ok negQuantityInventory ∧
    ¬ invOK negQuantityInventory :=
  ⟨by decide, rfl, by decide⟩

/-! C2 fixtures: two racing booking requests with payment references
against the single remaining unit of the first seeded car. -/

def piAlpha : String := "pi_alpha"

def piBeta : String := "pi_beta"

/-- Deployment with a Stripe key where both references verify as paid. -/
def racingConfig : Config :=
  { stripeConfigured := true, retrieveIntent := fun _ => some succeededStatus }

/-- A store whose only car has exactly one unit left. -/
def lastUnitInventory : Inventory := { cars := [camry], bookings := [] }

def paidReqA : BookingRequest :=
  { carId := 1
    firstName := "Alice"
    lastName := "Smith"
    email := "alice@example.com"
    phone := "5550001"
    pickupDate := 0
    returnDate := 259200000
    pickupLocation := "Tulsa"
    additionalInfo := none
    paymentIntentId := some piAlpha }

def paidReqB : BookingRequest :=
  { paidReqA with
    firstName := "Bob"
    lastName := "Jones"
    email := "bob@example.com"
    phone := "5550002"
    paymentIntentId := some piBeta }

/-- C2: the handler has no mutual-exclusion guard, and between the
availability check and the save it awaits the external payment lookup, so
two handlers can both read the same stored document with available = 1,
both pass the check, and both return success; the save of the second
overwrites the save of the first, leaving one recorded booking and two
success responses.  The two calls below evaluate the handler on the same
loaded snapshot, which is exactly the stale-read interleaving the awaited
lookup makes reachable. -/
theorem c2_double_success_race :
    camry.available = 1 ∧
    isOkB (createBooking racingConfig lastUnitInventory paidReqA 1000) = true ∧
    isOkB (createBooking racingConfig lastUnitInventory paidReqB 2000) = true ∧
    (bookedInvOr (createBooking racingConfig lastUnitInventory paidReqB 2000)
        lastUnitInventory).bookings.length = 1 ∧
    ((bookedInvOr (createBooking racingConfig lastUnitInventory paidReqB 2000)
        lastUnitInventory).cars.map Car.available) = [0] := by
  refine ⟨rfl, by decide, by decide, by decide, by decide⟩

/-- A request whose customer fields are all malformed in the sense of the
specification: empty names, no usable email or phone, empty pickup
location. -/
def malformedReq : BookingRequest :=
  { carId := 1
    firstName := ""
    lastName := ""
    email := "not-an-email"
    phone := "abc"
    pickupDate := 0
    returnDate := 259200000
    pickupLocation := ""
    additionalInfo := none
    paymentIntentId := none }

/-- C3, amended.  The handler validates no customer field: whether the call
succeeds never depends on the customer fields, and a successful call copies
them verbatim into the stored booking. -/
theorem c3_no_customer_validation :
    (∀ cfg inv req now f l e p loc,
       isOkB (createBooking cfg inv
           { req with firstName := f, lastName := l, email := e,
                      phone := p, pickupLocation := loc } now) = true
         ↔ isOkB (createBooking cfg inv req now) = true)
  ∧ (∀ cfg inv req now inv2 b, createBooking cfg inv req now = .ok (inv2, b) →
       b.firstName = req.firstName ∧ b.lastName = req.lastName ∧
       b.email = req.email ∧ b.phone = req.phone ∧
       b.pickupLocation = req.pickupLocation) := by
  constructor
  · intro cfg inv req now f l e p loc
    exact (createBooking_isOk_iff cfg inv
      { req with firstName := f, lastName := l, email := e,
                 phone := p, pickupLocation := loc } now).trans
      (createBooking_isOk_iff cfg inv req now).symm
  · intro cfg inv req now inv2 b h
    obtain ⟨car, -, -, -, -, -, -, -, hf, hl, he, hp, -, -, hloc, -, -, -, -,
      -, -, -, -, -, -⟩ := createBooking_ok_spec cfg inv req now inv2 b h
    exact ⟨hf, hl, he, hp, hloc⟩

/-- C3 witness: the customer fields of the demo booking are stored exactly
as submitted. -/
theorem c3_witness :
    demoBooking.firstName = demoReq.firstName ∧
    demoBooking.lastName = demoReq.lastName ∧
    demoBooking.email = demoReq.email ∧
    demoBooking.phone = demoReq.phone ∧
    demoBooking.pickupLocation = demoReq.pickupLocation :=
  c3_no_customer_validation.2 noStripeConfig seededInventory demoReq 1000
    demoInvAfter demoBooking rfl

/-- C3 counterexample: a request with empty names, a malformed email and
phone and an empty pickup location is accepted, not rejected with any
validation error. -/
theorem c3_counterexample :
    malformedReq.firstName = "" ∧ malformedReq.pickupLocation = "" ∧
    isOkB (createBooking noStripeConfig seededInventory malformedReq 1000) = true :=
  ⟨rfl, rfl, by decide⟩

/-- A request dated backwards: the return precedes the pickup. -/
def backwardsReq : BookingRequest :=
  { demoReq with pickupDate := 259200000, returnDate := 0 }

/-- C4: with an existing car that has availability, a request whose return
date is not after its pickup date is rejected with the invalid-date-range
error, and the handler returns before any mutation or save. -/
theorem c4_invalid_date_range (cfg : Config) (inv : Inventory) (req : BookingRequest)
    (now : Int) (car : Car)
    (hcar : inv.cars.find? (carMatches req.carId) = some car)
    (hav : 0 < car.available)
    (hd : req.returnDate ≤ req.pickupDate) :
    createBooking cfg inv req now = .error .invalidDateRange := by
  simp only [createBooking, hcar]
  rw [if_neg (by omega), if_pos hd]

/-- C4 witness: the backwards demo request against the seeded inventory is
rejected with the invalid-date-range error. -/
theorem c4_witness :
    createBooking noStripeConfig seededInventory backwardsReq 1000 =
      .error .invalidDateRange :=
  c4_invalid_date_range noStripeConfig seededInventory backwardsReq 1000 rav4
    (by decide) (by decide) (by decide)

/-- A store whose only car is sold out. -/
def soldOutInventory : Inventory :=
  { cars := [{ camry with available := 0 }], bookings := [] }

/-- A request for the first car. -/
def reqForCar1 : BookingRequest := { demoReq with carId := 1 }

/-- C5: a booking is created only when the targeted car has positive
availability in the just-loaded document; with available = 0 the call is
rejected with the car-unavailable error before any mutation or save. -/
theorem c5_unavailable_guard :
    (∀ cfg inv req now car,
       inv.cars.find? (carMatches req.carId) = some car → car.available = 0 →
       createBooking cfg inv req now = .error .carUnavailable)
  ∧ (∀ cfg inv req now inv2 b,
       createBooking cfg inv req now = .ok (inv2, b) →
       ∃ car, inv.cars.find? (carMatches req.carId) = some car ∧ 0 < car.available) := by
  constructor
  · intro cfg inv req now car hcar hzero
    simp only [createBooking, hcar]
    rw [if_pos (by omega)]
  · intro cfg inv req now inv2 b h
    obtain ⟨car, hfind, hav, -, -, -, -, -, -, -, -, -, -, -, -, -, -, -, -,
      -, -, -, -, -⟩ := createBooking_ok_spec cfg inv req now inv2 b h
    exact ⟨car, hfind, hav⟩

/-- C5 witness: booking the sold-out car is rejected with the
car-unavailable error. -/
theorem c5_witness :
    createBooking noStripeConfig soldOutInventory reqForCar1 1000 =
      .error .carUnavailable :=
  c5_unavailable_guard.1 noStripeConfig soldOutInventory reqForCar1 1000
    { camry with available := 0 } (by decide) (by decide)

/-- A whole tax computed on an integral subtotal has an exact two-decimal
representation, so rounding it to two decimals is the identity. -/
lemma roundTo2_exact (d p : ℤ) :
    roundTo2 (((d : ℚ) * (p : ℚ)) * (8 / 100)) = ((d : ℚ) * (p : ℚ)) * (8 / 100) := by
  unfold roundTo2
  have h : ((d : ℚ) * (p : ℚ)) * (8 / 100) * 100 = ((d * p * 8 : ℤ) : ℚ) := by
    push_cast
    ring
  rw [h, round_intCast]
  push_cast
  ring

/-! C6 fixtures: the worked example of the specification, with the two
dates as UTC millisecond timestamps of 2024-06-01 and 2024-06-04. -/

def exampleReq : BookingRequest :=
  { carId := 2
    firstName := "Jane"
    lastName := "Doe"
    email := "jane@example.com"
    phone := "9182048691"
    pickupDate := 1717200000000
    returnDate := 1717459200000
    pickupLocation := "Tulsa"
    additionalInfo := none
    paymentIntentId := none }

def exampleResult : Except BookingError (Inventory × Booking) :=
  createBooking noStripeConfig seededInventory exampleReq 5000

def exampleInvAfter : Inventory := bookedInvOr exampleResult seededInventory

def exampleBooking : Booking := bookedBookingOr exampleResult fallbackBooking

/-- C6: pricing is a pure function of the two dates and the daily rate.
Every successful booking snapshot satisfies the ceiling-day formula, the
subtotal and total identities, and the tax both equals subtotal times 8
percent and already carries exact two-decimal precision, so rounding it to
two decimals changes nothing.  The worked example of the specification
evaluates to days 3, subtotal 210, tax 16.80, total 226.80, and the
availability of the booked car drops from 3 to 2.  Monetary arithmetic is
modelled over exact rationals. -/
theorem c6_pricing :
    (∀ cfg inv req now inv2 b, createBooking cfg inv req now = .ok (inv2, b) →
       b.days = ⌈((b.returnDate - b.pickupDate : ℤ) : ℚ) / (86400000 : ℚ)⌉ ∧
       b.subtotal = ((b.days : ℤ) : ℚ) * ((b.pricePerDay : ℤ) : ℚ) ∧
       b.total = b.subtotal + b.tax ∧
       b.tax = b.subtotal * (8 / 100) ∧
       b.tax = roundTo2 (b.subtotal * (8 / 100)))
  ∧ (createBooking noStripeConfig seededInventory exampleReq 5000 =
       .ok (exampleInvAfter, exampleBooking) ∧
     exampleBooking.days = 3 ∧
     exampleBooking.subtotal = 210 ∧
     exampleBooking.tax = 84 / 5 ∧
     exampleBooking.total = 1134 / 5 ∧
     rav4.available = 3 ∧
     exampleInvAfter.cars.map Car.available = [1, 2]) := by
  constructor
  · intro cfg inv req now inv2 b h
    obtain ⟨car, -, -, -, -, -, -, -, -, -, -, -, hpd, hrd, -, -, hppd, hdays,
      hsub, htax, htot, -, -, -, -⟩ := createBooking_ok_spec cfg inv req now inv2 b h
    refine ⟨?_, ?_, ?_, htax, ?_⟩
    · rw [hdays, hpd, hrd]
      rfl
    · rw [hppd]
      exact hsub
    · exact htot
    · rw [htax, hsub]
      exact (roundTo2_exact b.days car.price).symm
  · have hdays3 : rentalDays 1717200000000 1717459200000 = 3 := by
      unfold rentalDays
      norm_num
    have hdB : exampleBooking.days = rentalDays 1717200000000 1717459200000 := rfl
    have hsB : exampleBooking.subtotal =
        ((rentalDays 1717200000000 1717459200000 : ℤ) : ℚ) * ((70 : ℤ) : ℚ) := rfl
    have htB : exampleBooking.tax = exampleBooking.subtotal * (8 / 100) := rfl
    have httB : exampleBooking.total = exampleBooking.subtotal + exampleBooking.tax := rfl
    have hsub210 : exampleBooking.subtotal = 210 := by
      rw [hsB, hdays3]
      norm_num
    have htax168 : exampleBooking.tax = 84 / 5 := by
      rw [htB, hsub210]
      norm_num
    refine ⟨rfl, ?_, hsub210, htax168, ?_, rfl, by decide⟩
    · rw [hdB, hdays3]
    · rw [httB, hsub210, htax168]
      norm_num

/-- C6 witness: the general pricing identities instantiated at the worked
example booking. -/
theorem c6_witness :
    exampleBooking.days =
      ⌈((exampleBooking.returnDate - exampleBooking.pickupDate : ℤ) : ℚ) / (86400000 : ℚ)⌉ ∧
    exampleBooking.subtotal =
      ((exampleBooking.days : ℤ) : ℚ) * ((exampleBooking.pricePerDay : ℤ) : ℚ) ∧
    exampleBooking.total = exampleBooking.subtotal + exampleBooking.tax ∧
    exampleBooking.tax = exampleBooking.subtotal * (8 / 100) ∧
    exampleBooking.tax = roundTo2 (exampleBooking.subtotal * (8 / 100)) :=
  c6_pricing.1 noStripeConfig seededInventory exampleReq 5000
    exampleInvAfter exampleBooking rfl

/-- C10: a successful booking changes the store in exactly two places: one
car, located by id, has its available count lowered by one with every other
field intact, and the new booking is appended at the end of the bookings
list; every other list position is untouched and the car list keeps its
length. -/
theorem c10_frame_effect (cfg : Config) (inv : Inventory) (req : BookingRequest)
    (now : Int) (inv2 : Inventory) (b : Booking)
    (h : createBooking cfg inv req now = .ok (inv2, b)) :
    inv2.bookings = inv.bookings ++ [b] ∧
    inv2.cars.length = inv.cars.length ∧
    ∃ j, ∃ hj : j < inv.cars.length,
      carMatches req.carId (inv.cars.get ⟨j, hj⟩) = true ∧
      inv2.cars = inv.cars.set j
        { inv.cars.get ⟨j, hj⟩ with
            available := (inv.cars.get ⟨j, hj⟩).available - 1 } ∧
      ∀ k, k ≠ j → inv2.cars[k]? = inv.cars[k]? := by
  obtain ⟨car, hfind, -, -, -, -, -, -, -, -, -, -, -, -, -, -, -, -, -, -,
    -, -, -, hcars, hbook⟩ := createBooking_ok_spec cfg inv req now inv2 b h
  obtain ⟨j, hj, hget, hm, hupd⟩ :=
    updateFirst_of_find inv.cars req.carId
      (fun c => { c with available := c.available - 1 }) car hfind
  refine ⟨hbook, ?_, j, hj, ?_, ?_, ?_⟩
  · rw [hcars, hupd]
    exact List.length_set inv.cars j _
  · rw [hget]
    exact hm
  · rw [hcars, hupd, hget]
  · intro k hk
    rw [hcars, hupd]
    exact List.getElem?_set_ne (Ne.symm hk)

/-- C10 witness: the demo booking against the seeded inventory decrements
only the second car and appends exactly one booking. -/
theorem c10_witness :
    demoInvAfter.bookings = seededInventory.bookings ++ [demoBooking] ∧
    demoInvAfter.cars.length = seededInventory.cars.length ∧
    ∃ j, ∃ hj : j < seededInventory.cars.length,
      carMatches demoReq.carId (seededInventory.cars.get ⟨j, hj⟩) = true ∧
      demoInvAfter.cars = seededInventory.cars.set j
        { seededInventory.cars.get ⟨j, hj⟩ with
            available := (seededInventory.cars.get ⟨j, hj⟩).available - 1 } ∧
      ∀ k, k ≠ j → demoInvAfter.cars[k]? = seededInventory.cars[k]? :=
  c10_frame_effect noStripeConfig seededInventory demoReq 1000
    demoInvAfter demoBooking rfl

/-- C7, amended.  The renderer recomputes days, subtotal, tax and total
from the dates and the daily rate stored in the booking, with the same
formulas the handler used at creation; for every booking the handler
produces, the recomputed figures therefore coincide with the stored
snapshot, but the snapshot fields themselves are never read. -/
theorem c7_rendered_figures (cfg : Config) (inv : Inventory) (req : BookingRequest)
    (now : Int) (inv2 : Inventory) (b : Booking)
    (h : createBooking cfg inv req now = .ok (inv2, b)) :
    invoiceDays b = b.days ∧ invoiceSubtotal b = b.subtotal ∧
    invoiceTax b = b.tax ∧ invoiceTotal b = b.total := by
  obtain ⟨car, -, -, -, -, -, -, -, -, -, -, -, hpd, hrd, -, -, hppd, hdays,
    hsub, htax, htot, -, -, -, -⟩ := createBooking_ok_spec cfg inv req now inv2 b h
  have h1 : invoiceDays b = b.days := by
    unfold invoiceDays
    rw [hpd, hrd, hdays]
  have h2 : invoiceSubtotal b = b.subtotal := by
    unfold invoiceSubtotal
    rw [h1, hppd]
    exact hsub.symm
  have h3 : invoiceTax b = b.tax := by
    unfold invoiceTax
    rw [h2]
    exact htax.symm
  have h4 : invoiceTotal b = b.total := by
    unfold invoiceTotal
    rw [h2, h3]
    exact htot.symm
  exact ⟨h1, h2, h3, h4⟩

/-- C7 witness: the recomputed invoice figures of the demo booking equal
its stored snapshot. -/
theorem c7_witness :
    invoiceDays demoBooking = demoBooking.days ∧
    invoiceSubtotal demoBooking = demoBooking.subtotal ∧
    invoiceTax demoBooking = demoBooking.tax ∧
    invoiceTotal demoBooking = demoBooking.total :=
  c7_rendered_figures noStripeConfig seededInventory demoReq 1000
    demoInvAfter demoBooking rfl

/-- A booking whose stored pricing snapshot was altered after creation. -/
def tamperedBooking : Booking :=
  { demoBooking with days := 99, subtotal := 0, tax := 0, total := 999 }

/-- C7 counterexample: the renderer output never reads the stored snapshot
fields.  A booking whose snapshot was tampered with renders to exactly the
same document as the honest booking, although its stored days field says
99 while the rendered document derives 3 from the dates; so the figures
appearing in the document are not the snapshot fields. -/
theorem c7_counterexample :
    generateInvoiceHTML toString tamperedBooking =
      generateInvoiceHTML toString demoBooking ∧
    tamperedBooking.days = 99 ∧
    demoBooking.days = 3 := by
  refine ⟨rfl, rfl, ?_⟩
  have h0 : demoBooking.days = rentalDays 0 259200000 := rfl
  rw [h0]
  unfold rentalDays
  norm_num

lemma generateInvoiceHTML_embeds_info (locale : Int → String) (b : Booking)
    (h : ¬ b.additionalInfo = "") :
    ∃ l r, generateInvoiceHTML locale b = l ++ (b.additionalInfo ++ r) := by
  refine ⟨invTpl1 ++ b.firstName ++ invTpl2 ++ b.bookingId ++ invTpl3 ++ b.carName ++ invTpl4
      ++ locale b.pickupDate ++ invTpl5 ++ locale b.returnDate ++ invTpl6
      ++ toString (invoiceDays b) ++ invTpl7 ++ b.pickupLocation ++ invTpl8
      ++ b.firstName ++ " " ++ b.lastName ++ invTpl9 ++ b.email ++ invTpl10
      ++ b.phone ++ invTpl11
      ++ toString b.pricePerDay ++ invTpl12 ++ toString (invoiceDays b) ++ invTpl13
      ++ toFixed2 (invoiceSubtotal b) ++ invTpl14 ++ toFixed2 (invoiceTax b) ++ invTpl15
      ++ toFixed2 (invoiceTotal b) ++ invTpl16 ++ addlPre,
    addlPost ++ invTail, ?_⟩
  simp only [generateInvoiceHTML, if_neg h, String.append_assoc]

lemma generateInvoiceHTML_embeds_name (locale : Int → String) (b : Booking) :
    ∃ l r, generateInvoiceHTML locale b = l ++ (b.firstName ++ r) := by
  refine ⟨invTpl1,
    invTpl2 ++ b.bookingId ++ invTpl3 ++ b.carName ++ invTpl4
      ++ locale b.pickupDate ++ invTpl5 ++ locale b.returnDate ++ invTpl6
      ++ toString (invoiceDays b) ++ invTpl7 ++ b.pickupLocation ++ invTpl8
      ++ b.firstName ++ " " ++ b.lastName ++ invTpl9 ++ b.email ++ invTpl10
      ++ b.phone ++ invTpl11
      ++ toString b.pricePerDay ++ invTpl12 ++ toString (invoiceDays b) ++ invTpl13
      ++ toFixed2 (invoiceSubtotal b) ++ invTpl14 ++ toFixed2 (invoiceTax b) ++ invTpl15
      ++ toFixed2 (invoiceTotal b) ++ invTpl16
      ++ (if b.additionalInfo = "" then "" else addlPre ++ b.additionalInfo ++ addlPost)
      ++ invTail, ?_⟩
  simp only [generateInvoiceHTML, String.append_assoc]

/-- C8, amended.  The renderer escapes nothing: the free-text customer
fields additionalInfo and firstName are embedded verbatim, character for
character, into the markup output. -/
theorem c8_verbatim_embedding (locale : Int → String) (b : Booking)
    (h : ¬ b.additionalInfo = "") :
    (∃ l r, generateInvoiceHTML locale b = l ++ (b.additionalInfo ++ r)) ∧
    (∃ l r, generateInvoiceHTML locale b = l ++ (b.firstName ++ r)) :=
  ⟨generateInvoiceHTML_embeds_info locale b h,
   generateInvoiceHTML_embeds_name locale b⟩

/-- C8 witness: the demo booking has its free text embedded verbatim. -/
theorem c8_witness :
    (∃ l r, generateInvoiceHTML toString demoBooking =
        l ++ (demoBooking.additionalInfo ++ r)) ∧
    (∃ l r, generateInvoiceHTML toString demoBooking =
        l ++ (demoBooking.firstName ++ r)) :=
  c8_verbatim_embedding toString demoBooking (by decide)

/-- A script tag supplied as customer free text. -/
def evilInfo : String := "<script>alert(1)</script>"

/-- The demo booking carrying the script tag as additional information. -/
def evilBooking : Booking := { demoBooking with additionalInfo := evilInfo }

/-- C8 counterexample: the claim says every free-text field is escaped
before embedding, so no input can inject unescaped markup; but a script
tag supplied as additionalInfo reappears verbatim, unescaped, inside the
rendered document. -/
theorem c8_counterexample :
    evilBooking.additionalInfo = evilInfo ∧
    ∃ l r, generateInvoiceHTML toString evilBooking = l ++ (evilInfo ++ r) := by
  refine ⟨rfl, ?_⟩
  exact generateInvoiceHTML_embeds_info toString evilBooking (by decide)

/-- Status reported by the declined payment fixture. -/
def requiresStatus : String := "requires_payment_method"

/-- Deployment with a Stripe key whose lookup reports a declined payment. -/
def declinedConfig : Config :=
  { stripeConfigured := true, retrieveIntent := fun _ => some requiresStatus }

/-- Deployment without a Stripe key although the collaborator would report
a declined payment if it were asked. -/
def unconfiguredStripe : Config :=
  { stripeConfigured := false, retrieveIntent := fun _ => some requiresStatus }

/-- C9, amended.  When a Stripe key is configured, a request reaching the
payment step with a supplied reference is rejected with the
payment-not-completed error unless the looked-up status indicates success,
and a failing lookup is rejected as payment-verification-failed; a request
without a reference books with pending payment status.  Without a key the
lookup is skipped entirely, see the counterexample. -/
theorem c9_payment_gating :
    (∀ cfg inv req now car pid status,
       inv.cars.find? (carMatches req.carId) = some car → 0 < car.available →
       req.pickupDate < req.returnDate →
       cfg.stripeConfigured = true →
       req.paymentIntentId = some pid → ¬ pid = "" →
       cfg.retrieveIntent pid = some status → ¬ status = succeededStatus →
       createBooking cfg inv req now = .error .paymentNotCompleted)
  ∧ (∀ cfg inv req now car pid,
       inv.cars.find? (carMatches req.carId) = some car → 0 < car.available →
       req.pickupDate < req.returnDate →
       cfg.stripeConfigured = true →
       req.paymentIntentId = some pid → ¬ pid = "" →
       cfg.retrieveIntent pid = none →
       createBooking cfg inv req now = .error .paymentVerificationFailed)
  ∧ (∀ cfg inv req now car,
       inv.cars.find? (carMatches req.carId) = some car → 0 < car.available →
       req.pickupDate < req.returnDate →
       refSupplied req.paymentIntentId = false →
       isOkB (createBooking cfg inv req now) = true ∧
       bookedPaymentStatus (createBooking cfg inv req now) = some pendingStatus) := by
  refine ⟨?_, ?_, ?_⟩
  · intro cfg inv req now car pid status hfind hav hd hcfg hpid hne hret hst
    have hv : verifyPayment cfg req.paymentIntentId = .error .paymentNotCompleted := by
      rw [hpid]
      simp [verifyPayment, refSupplied, hcfg, hret, hne, hst]
    simp only [createBooking, hfind]
    rw [if_neg (by omega), if_neg (by omega), hv]
  · intro cfg inv req now car pid hfind hav hd hcfg hpid hne hret
    have hv : verifyPayment cfg req.paymentIntentId = .error .paymentVerificationFailed := by
      rw [hpid]
      simp [verifyPayment, refSupplied, hcfg, hret, hne]
    simp only [createBooking, hfind]
    rw [if_neg (by omega), if_neg (by omega), hv]
  · intro cfg inv req now car hfind hav hd hrs
    have hv : verifyPayment cfg req.paymentIntentId = .ok pendingStatus := by
      simp [verifyPayment, hrs]
    constructor
    · simp only [createBooking, hfind]
      rw [if_neg (by omega), if_neg (by omega), hv]
      rfl
    · simp only [createBooking, hfind]
      rw [if_neg (by omega), if_neg (by omega), hv]
      rfl

/-- C9 witness: with a configured key, a declined reference is rejected
with the payment-not-completed error. -/
theorem c9_witness :
    createBooking declinedConfig lastUnitInventory paidReqA 1000 =
      .error .paymentNotCompleted :=
  c9_payment_gating.1 declinedConfig lastUnitInventory paidReqA 1000 camry
    piAlpha requiresStatus (by decide) (by decide) (by decide) rfl rfl
    (by decide) rfl (by decide)

/-- C9 counterexample: the claim quantifies over every request that
supplies a payment reference, but without a configured Stripe key the
collaborator is never queried: the same declined reference books
successfully with pending payment status. -/
theorem c9_counterexample :
    unconfiguredStripe.stripeConfigured = false ∧
    paidReqA.paymentIntentId = some piAlpha ∧
    unconfiguredStripe.retrieveIntent piAlpha = some requiresStatus ∧
    ¬ requiresStatus = succeededStatus ∧
    isOkB (createBooking unconfiguredStripe lastUnitInventory paidReqA 1000) = true ∧
    bookedPaymentStatus (createBooking unconfiguredStripe lastUnitInventory paidReqA 1000) =
      some pendingStatus :=
  ⟨rfl, rfl, rfl, by decide, by decide, by decide⟩

end CarRental
